import Mathlib

/-
  Shallow embedding of the TTS batch dispatch / retry / streaming engine
  (src/tts_agents/models.py, core.py, batch.py, streaming.py).

  Conventions:
  * Python byte strings are `List Nat`.
  * A Python call that may raise is modelled as `PyResult`: either a value
    or an exception carrying its message string.
  * Floats that carry exact decimal values in the code (speeds, times) are
    modelled as `Rat`.
  * asyncio.gather(..., return_exceptions=True) returns per-task results
    index-aligned with the task list; each task is modelled by the value it
    resolves to (a `PyResult`), indexed by its position in the batch so that
    distinct task instances may behave differently.
-/

deriving instance DecidableEq for Except

namespace TTSAgents

/-- Byte strings (Python `bytes`) as lists of byte values. -/
abbrev Bytes := List Nat

/-- Result of a Python call: a returned value or a raised exception
(represented by its message). -/
inductive PyResult (α : Type) where
  | ok (val : α)
  | exn (msg : String)
deriving Repr, DecidableEq

/-- True when the call returned normally. -/
def PyResult.isOk {α : Type} : PyResult α → Bool
  | .ok _ => true
  | .exn _ => false

/-- Whitespace characters removed by Python str.strip (ASCII subset). -/
def isPySpace (c : Char) : Bool :=
  c = ' ' || c = '\t' || c = '\n' || c = '\r' || c = '\x0b' || c = '\x0c'

/-- Model of Python str.strip: drop leading and trailing whitespace. -/
def pyStrip (s : String) : String :=
  String.mk (((s.data.dropWhile isPySpace).reverse.dropWhile isPySpace).reverse)

/-- Model of Python len on strings (number of characters). -/
def pyLen (s : String) : Nat := s.data.length

/-- models.py Voice enum values. -/
def voiceValues : List String := ["alloy", "echo", "fable", "onyx", "nova", "shimmer"]

/-- models.py TTSModel enum values. -/
def modelValues : List String := ["tts-1", "tts-1-hd"]

/-- models.py AudioFormat enum values. -/
def formatValues : List String := ["mp3", "opus", "aac", "flac"]

/-- Field data of a models.py TTSRequest, before pydantic validation.
Enum-typed fields are carried as their string values (use_enum_values). -/
structure TTSRequest where
  text : String
  voice : String := "alloy"
  model : String := "tts-1"
  format : String := "mp3"
  speed : Rat := 1
deriving Repr, DecidableEq

/-- Pydantic validation performed when constructing a models.py TTSRequest.
Field order follows declaration order; for `text` the Field length
constraints (min_length=1, max_length=4096) run on the original value
before the custom stripping validator, which replaces the text with its
stripped form. Errors are pydantic ValidationError messages. -/
def mkTTSRequest (r : TTSRequest) : Except String TTSRequest :=
  if pyLen r.text < 1 then
    .error "text: ensure this value has at least 1 characters"
  else if 4096 < pyLen r.text then
    .error "text: ensure this value has at most 4096 characters"
  else if pyStrip r.text = "" then
    .error "Text cannot be empty or only whitespace"
  else if r.voice ∉ voiceValues then
    .error "voice: value is not a valid enumeration member"
  else if r.model ∉ modelValues then
    .error "model: value is not a valid enumeration member"
  else if r.format ∉ formatValues then
    .error "format: value is not a valid enumeration member"
  else if ¬ (mkRat 1 4 ≤ r.speed ∧ r.speed ≤ mkRat 4 1) then
    .error "Speed must be between 0.25 and 4.0"
  else
    .ok { r with text := pyStrip r.text }

/-- Values stored in a TTSResponse metadata mapping (strings, rationals for
floats, naturals for lengths). -/
inductive MetaVal where
  | s (v : String)
  | q (v : Rat)
  | n (v : Nat)
deriving Repr, DecidableEq

/-- models.py TTSResponse. Fields default like the pydantic model; bytes
are `Bytes`, paths are strings. -/
structure TTSResponse where
  success : Bool
  audio_data : Option Bytes := none
  file_path : Option String := none
  duration : Option Rat := none
  file_size : Option Nat := none
  metadata : List (String × MetaVal) := []
  error : Option String := none
deriving Repr, DecidableEq

/-- core.py TTSAgent.generate_speech with output_path = None (the batch
engine is modelled without an output directory; file writes are filesystem
side effects outside the embedding). The backend synthesis call
(_call_openai_api) is abstracted by its result `api`: audio bytes, or a
raised TTSAPIError message. A pydantic ValidationError raised while
constructing the TTSRequest is not a TTSValidationError, so it falls
through to the generic handler and becomes a failed response, while a
TTSAPIError is re-raised to the caller. -/
def generate_speech (req : TTSRequest) (api : PyResult Bytes) : PyResult TTSResponse :=
  match mkTTSRequest req with
  | .error e => .ok { success := false, error := some ("Unexpected error: " ++ e) }
  | .ok v =>
    match api with
    | .exn msg => .exn msg
    | .ok audio =>
      .ok { success := true
            audio_data := some audio
            file_size := some audio.length
            metadata := [("voice", .s v.voice), ("model", .s v.model),
                         ("format", .s v.format), ("speed", .q v.speed),
                         ("text_length", .n (pyLen req.text))] }

/-- Trace of one batch.py _process_single_request run: the returned
response, the backoff sleeps performed between attempts (whole seconds, in
order), and how many agent.generate_speech calls were made. -/
structure SingleTrace where
  response : TTSResponse
  sleeps : List Nat
  attempts : Nat
deriving Repr, DecidableEq

/-- batch.py _process_single_request retry loop (lines 169-216), written by
recursion on the number of retries remaining; `backend attempt` is what the
agent.generate_speech call returns (or raises) on that 0-based attempt.
On a failed response or an exception with retries remaining, the engine
sleeps 1.0 * (attempt + 1) seconds and retries; on the last attempt a
failed response is returned as is and an exception becomes a failure
response naming the total attempt count. -/
def retryAux (backend : Nat → PyResult TTSResponse) (retry_attempts : Nat) :
    Nat → Nat → SingleTrace
  | attempt, 0 =>
    match backend attempt with
    | .ok r => ⟨r, [], 1⟩
    | .exn msg =>
      ⟨{ success := false,
         error := some ("Failed after " ++ toString (retry_attempts + 1) ++ " attempts: " ++ msg) },
       [], 1⟩
  | attempt, remaining + 1 =>
    match backend attempt with
    | .ok r =>
      if r.success then ⟨r, [], 1⟩
      else
        let t := retryAux backend retry_attempts (attempt + 1) remaining
        ⟨t.response, (attempt + 1) :: t.sleeps, t.attempts + 1⟩
    | .exn _ =>
      let t := retryAux backend retry_attempts (attempt + 1) remaining
      ⟨t.response, (attempt + 1) :: t.sleeps, t.attempts + 1⟩

/-- batch.py _process_single_request: the retry loop starting at attempt 0
with retry_attempts retries remaining (the for-loop runs attempt = 0 ..
retry_attempts). -/
def processSingleRequest (backend : Nat → PyResult TTSResponse)
    (retry_attempts : Nat) : SingleTrace :=
  retryAux backend retry_attempts 0 retry_attempts

/-- State of the result-classification loop of batch.py process_batch. -/
structure AggState where
  successful : Nat
  failed : Nat
  errors : List String
  results : List TTSResponse
deriving Repr, DecidableEq

/-- Error string format used for exceptional items in batch.py. -/
def requestError (i : Nat) (msg : String) : String :=
  "Request " ++ toString i ++ ": " ++ msg

/-- batch.py process_batch result loop (lines 88-117): classify each
gathered result, counting successes and failures, collecting error strings
in index order, and building the processed results list. An exception
returned by gather becomes a failed TTSResponse for that index; a failed
response contributes an error entry only when its error message is truthy
(present and non-empty). The final isinstance fallback branch is
unreachable in the typed model. -/
def aggregateFrom (i : Nat) : List (PyResult TTSResponse) → AggState
  | [] => ⟨0, 0, [], []⟩
  | r :: rest =>
    let s := aggregateFrom (i + 1) rest
    match r with
    | .exn msg =>
      ⟨s.successful, s.failed + 1, requestError i msg :: s.errors,
       { success := false, error := some (requestError i msg) } :: s.results⟩
    | .ok resp =>
      if resp.success then
        ⟨s.successful + 1, s.failed, s.errors, resp :: s.results⟩
      else
        ⟨s.successful, s.failed + 1,
         (match resp.error with
          | some e => if e = "" then s.errors else requestError i e :: s.errors
          | none => s.errors),
         resp :: s.results⟩

/-- Dispatch phase of batch.py process_batch: one gather task per request
in submission order; `run i req` is the value task number i resolves to
(asyncio.gather with return_exceptions=True yields results index-aligned
with the task list, whatever the completion order). -/
def runAll {α β : Type} (run : Nat → α → β) : Nat → List α → List β
  | _, [] => []
  | i, x :: xs => run i x :: runAll run (i + 1) xs

/-- models.py BatchTTSResponse. Counts are Python ints. -/
structure BatchTTSResponse where
  total_requests : Int
  successful : Int
  failed : Int
  results : List TTSResponse
  processing_time : Rat
  errors : List String
deriving Repr, DecidableEq

/-- Construction of a models.py BatchTTSResponse: the root validator
validate_counts raises a pydantic ValueError unless successful + failed
equals total_requests and the number of results equals total_requests. -/
def mkBatchTTSResponse (total successful failed : Int) (results : List TTSResponse)
    (processing_time : Rat) (errors : List String) : Except String BatchTTSResponse :=
  if successful + failed ≠ total then
    .error "Successful and failed counts must equal total requests"
  else if (results.length : Int) ≠ total then
    .error "Number of results must equal total requests"
  else
    .ok ⟨total, successful, failed, results, processing_time, errors⟩

/-- Try-block of batch.py process_batch (lines 59-133): batch size
validation, concurrent dispatch via gather, result classification, and
construction of the BatchTTSResponse. A raised exception (the
TTSValidationError for a bad batch size, or a pydantic error from
BatchTTSResponse construction) surfaces as .error. The optional output
directory is not modelled (see generate_speech). -/
def process_batch_core (requests : List TTSRequest)
    (run : Nat → TTSRequest → PyResult TTSResponse) (processing_time : Rat) :
    Except String BatchTTSResponse :=
  if requests.isEmpty then
    .error "No requests provided for batch processing"
  else if 100 < requests.length then
    .error "Maximum 100 requests allowed per batch"
  else
    let results := runAll run 0 requests
    let s := aggregateFrom 0 results
    mkBatchTTSResponse (requests.length : Int) (s.successful : Int) (s.failed : Int)
      s.results processing_time s.errors

/-- batch.py process_batch (lines 40-146): the whole body runs inside
try/except; any exception is converted into a fallback BatchTTSResponse
with zero successes and one failed response per request, carrying the
exception message as the single errors entry. Only an exception raised
while building that fallback itself would escape the call. -/
def process_batch (requests : List TTSRequest)
    (run : Nat → TTSRequest → PyResult TTSResponse) (processing_time : Rat) :
    PyResult BatchTTSResponse :=
  match process_batch_core requests run processing_time with
  | .ok r => .ok r
  | .error e =>
    match mkBatchTTSResponse (requests.length : Int) 0 (requests.length : Int)
        (requests.map fun _ => { success := false, error := some e })
        processing_time [e] with
    | .ok r => .ok r
    | .error e2 => .exn e2

/-- The pipeline as run by batch.py with no output directory: each item
executes _process_single_request, whose attempts call
agent.generate_speech on the item request; `api i attempt` is the backend
synthesis result for item i on the given 0-based attempt. -/
def process_batch_with_agent (requests : List TTSRequest) (api : Nat → Nat → PyResult Bytes)
    (retry_attempts : Nat) (processing_time : Rat) : PyResult BatchTTSResponse :=
  process_batch requests
    (fun i req =>
      .ok (processSingleRequest (fun a => generate_speech req (api i a)) retry_attempts).response)
    processing_time

/-- streaming.py StreamingTTS._stream_audio_chunks (lines 101-134): yields
each chunk the backend response produces, skipping falsy (empty) chunks
because of the `if chunk:` guard. -/
def streamAudioChunks (apiChunks : List Bytes) : List Bytes :=
  apiChunks.filter (fun c => !c.isEmpty)

/-- Loop body of streaming.py StreamingTTS.stream_speech (lines 77-88):
collect each produced chunk, invoke the per-chunk callback inside
try/except (a raising callback is logged and swallowed; `cbRaises` says on
which chunks the callback raises), and yield the chunk. Returns the
yielded chunks in order together with the number of swallowed callback
exceptions. -/
def streamLoop (cbRaises : Bytes → Bool) : List Bytes → List Bytes × Nat
  | [] => ([], 0)
  | c :: rest =>
    let t := streamLoop cbRaises rest
    (c :: t.1, (if cbRaises c then 1 else 0) + t.2)

/-- Trace of one streaming.py stream_speech run: the chunks yielded to the
consumer, the number of swallowed callback exceptions, and the bytes
written to the output file (none when no write happened). -/
structure StreamTrace where
  yielded : List Bytes
  callbackErrors : Nat
  written : Option Bytes
deriving Repr, DecidableEq

/-- streaming.py StreamingTTS.stream_speech (lines 39-99): request
validation via TTSRequest construction (an invalid request raises
TTSAgentError out of the generator); then the chunk loop; finally the
complete audio is written once, but only when an output path was supplied
and at least one chunk was collected (`if output_path and audio_chunks:`). -/
def stream_speech (req : TTSRequest) (apiChunks : List Bytes)
    (hasOutputPath : Bool) (cbRaises : Bytes → Bool) : PyResult StreamTrace :=
  match mkTTSRequest req with
  | .error e => .exn ("Streaming speech failed: " ++ e)
  | .ok _ =>
    let t := streamLoop cbRaises (streamAudioChunks apiChunks)
    .ok { yielded := t.1
          callbackErrors := t.2
          written := if hasOutputPath && !t.1.isEmpty then some t.1.flatten else none }

/-- Acceptance condition of the Request Validator as the spec words it
(claim C7): trimmed text non-empty and of length at most 4096, speed
within the inclusive range, and the enum fields members of their fixed
enumerations. Stated from the spec, to be compared with mkTTSRequest. -/
def specAccepts (r : TTSRequest) : Prop :=
  pyStrip r.text ≠ "" ∧ pyLen (pyStrip r.text) ≤ 4096 ∧
  mkRat 1 4 ≤ r.speed ∧ r.speed ≤ mkRat 4 1 ∧
  r.voice ∈ voiceValues ∧ r.model ∈ modelValues ∧ r.format ∈ formatValues

/-- Acceptance condition actually implemented by mkTTSRequest: the 4096
ceiling (and the 1 floor) constrain the original, untrimmed text. -/
def codeAccepts (r : TTSRequest) : Prop :=
  1 ≤ pyLen r.text ∧ pyLen r.text ≤ 4096 ∧ pyStrip r.text ≠ "" ∧
  mkRat 1 4 ≤ r.speed ∧ r.speed ≤ mkRat 4 1 ∧
  r.voice ∈ voiceValues ∧ r.model ∈ modelValues ∧ r.format ∈ formatValues

instance (r : TTSRequest) : Decidable (specAccepts r) := by
  unfold specAccepts
  infer_instance

instance (r : TTSRequest) : Decidable (codeAccepts r) := by
  unfold codeAccepts
  infer_instance

/-- What the result loop of process_batch turns one gathered task result
into: an exception at index i becomes a failed response with the indexed
message, a response is kept as is. -/
def postItem (i : Nat) : PyResult TTSResponse → TTSResponse
  | .exn msg => { success := false, error := some (requestError i msg) }
  | .ok resp => resp

/-- Response produced for an item whose final (0-based) attempt j, out of
retry_attempts + 1 total attempts, did not succeed: a failed response is
returned as is, an exception is wrapped with the attempt count. -/
def lastResponseAt (backend : Nat → PyResult TTSResponse) (j retry_attempts : Nat) :
    TTSResponse :=
  match backend j with
  | .ok r => r
  | .exn msg =>
    { success := false,
      error := some ("Failed after " ++ toString (retry_attempts + 1) ++ " attempts: " ++ msg) }

/-- The agent-level call fails on attempt i: it either returns an
unsuccessful response or raises. -/
def isFailAt (backend : Nat → PyResult TTSResponse) (i : Nat) : Prop :=
  match backend i with
  | .ok r => r.success = false
  | .exn _ => True

/-- Text of 4097 characters whose trimmed form has 4096 characters. -/
def overlongText : String := String.mk (List.replicate 4096 'a' ++ [' '])

theorem runAll_length {α β : Type} (run : Nat → α → β) :
    ∀ (i : Nat) (xs : List α), (runAll run i xs).length = xs.length := by
  intro i xs
  induction xs generalizing i with
  | nil => rfl
  | cons x xs ih => simp [runAll, ih]

theorem runAll_get? {α β : Type} (run : Nat → α → β) :
    ∀ (i j : Nat) (xs : List α),
      (runAll run i xs).get? j = (xs.get? j).map (run (i + j)) := by
  intro i j xs
  induction xs generalizing i j with
  | nil => simp [runAll]
  | cons x xs ih =>
    cases j with
    | zero => simp [runAll]
    | succ j =>
      have h := ih (i + 1) j
      have e : i + 1 + j = i + (j + 1) := by omega
      rw [e] at h
      simpa [runAll] using h

theorem aggregateFrom_counts :
    ∀ (i : Nat) (rs : List (PyResult TTSResponse)),
      (aggregateFrom i rs).successful + (aggregateFrom i rs).failed = rs.length ∧
      (aggregateFrom i rs).results.length = rs.length := by
  intro i rs
  induction rs generalizing i with
  | nil => simp [aggregateFrom]
  | cons r rs ih =>
    obtain ⟨h1, h2⟩ := ih (i + 1)
    cases r with
    | exn msg => simp [aggregateFrom, h2]; omega
    | ok resp =>
      by_cases hs : resp.success <;> simp [aggregateFrom, hs, h2] <;> omega

theorem aggregateFrom_get? :
    ∀ (i j : Nat) (rs : List (PyResult TTSResponse)),
      (aggregateFrom i rs).results.get? j = (rs.get? j).map (postItem (i + j)) := by
  intro i j rs
  induction rs generalizing i j with
  | nil => simp [aggregateFrom]
  | cons r rs ih =>
    have step : (aggregateFrom i (r :: rs)).results
        = postItem i r :: (aggregateFrom (i + 1) rs).results := by
      cases r with
      | exn msg => simp [aggregateFrom, postItem]
      | ok resp => by_cases hs : resp.success <;> simp [aggregateFrom, postItem, hs]
    rw [step]
    cases j with
    | zero => simp
    | succ j =>
      have h := ih (i + 1) j
      have e : i + 1 + j = i + (j + 1) := by omega
      rw [e] at h
      simpa using h

theorem retryAux_sleeps :
    ∀ (backend : Nat → PyResult TTSResponse) (R rem a : Nat),
      (retryAux backend R a rem).sleeps
        = List.range' (a + 1) ((retryAux backend R a rem).attempts - 1) ∧
      1 ≤ (retryAux backend R a rem).attempts ∧
      (retryAux backend R a rem).attempts ≤ rem + 1 := by
  intro backend R rem
  induction rem with
  | zero =>
    intro a
    cases hb : backend a <;> simp [retryAux, hb]
  | succ rem ih =>
    intro a
    have step : (retryAux backend R a (rem + 1)).sleeps
          = (a + 1) :: (retryAux backend R (a + 1) rem).sleeps ∧
          (retryAux backend R a (rem + 1)).attempts
            = (retryAux backend R (a + 1) rem).attempts + 1 ∨
        (retryAux backend R a (rem + 1)).sleeps = [] ∧
          (retryAux backend R a (rem + 1)).attempts = 1 := by
      cases hb : backend a with
      | ok r =>
        by_cases hs : r.success
        · right; simp [retryAux, hb, hs]
        · left; simp [retryAux, hb, hs]
      | exn m => left; simp [retryAux, hb]
    obtain ⟨hs, ha⟩ | ⟨hs, ha⟩ := step
    · obtain ⟨ih1, ih2, ih3⟩ := ih (a + 1)
      refine ⟨?_, by omega, by omega⟩
      rw [hs, ha, ih1]
      have e : (retryAux backend R (a + 1) rem).attempts + 1 - 1
          = ((retryAux backend R (a + 1) rem).attempts - 1) + 1 := by omega
      rw [e, List.range'_succ]
    · rw [hs, ha]
      exact ⟨rfl, by omega, by omega⟩

theorem retryAux_allFail :
    ∀ (backend : Nat → PyResult TTSResponse) (R rem a : Nat),
      (∀ j, a ≤ j → j ≤ a + rem → isFailAt backend j) →
      retryAux backend R a rem
        = ⟨lastResponseAt backend (a + rem) R, List.range' (a + 1) rem, rem + 1⟩ := by
  intro backend R rem
  induction rem with
  | zero =>
    intro a h
    have ha := h a (Nat.le_refl a) (by omega)
    unfold isFailAt at ha
    cases hb : backend a <;> rw [hb] at ha <;>
      simp [retryAux, hb, lastResponseAt, ha]
  | succ rem ih =>
    intro a h
    have ha := h a (Nat.le_refl a) (by omega)
    unfold isFailAt at ha
    have tail := ih (a + 1) (fun j h1 h2 => h j (by omega) (by omega))
    have e : a + 1 + rem = a + (rem + 1) := by omega
    rw [e] at tail
    cases hb : backend a with
    | ok r =>
      rw [hb] at ha
      simp [retryAux, hb, ha, tail, List.range'_succ]
    | exn m =>
      simp [retryAux, hb, tail, List.range'_succ]

theorem retryAux_succeedsAt :
    ∀ (backend : Nat → PyResult TTSResponse) (R rem a k : Nat) (r : TTSResponse),
      a ≤ k → k ≤ a + rem →
      (∀ j, a ≤ j → j < k → isFailAt backend j) →
      backend k = .ok r → r.success = true →
      retryAux backend R a rem = ⟨r, List.range' (a + 1) (k - a), k - a + 1⟩ := by
  intro backend R rem
  induction rem with
  | zero =>
    intro a k r hk1 hk2 hfail hok hrs
    have hka : k = a := by omega
    subst hka
    simp [retryAux, hok, Nat.sub_self]
  | succ rem ih =>
    intro a k r hk1 hk2 hfail hok hrs
    by_cases hka : k = a
    · subst hka
      simp [retryAux, hok, hrs, Nat.sub_self]
    · have halt : a < k := by omega
      have ha := hfail a (Nat.le_refl a) halt
      unfold isFailAt at ha
      have tail := ih (a + 1) k r (by omega) (by omega)
        (fun j h1 h2 => hfail j (by omega) h2) hok hrs
      have e3 : k - a = k - (a + 1) + 1 := by omega
      cases hb : backend a with
      | ok r0 =>
        rw [hb] at ha
        rw [e3, List.range'_succ]
        simp [retryAux, hb, ha, tail]
      | exn m =>
        rw [e3, List.range'_succ]
        simp [retryAux, hb, tail]

theorem process_batch_core_ok (requests : List TTSRequest)
    (run : Nat → TTSRequest → PyResult TTSResponse) (t : Rat)
    (h1 : 1 ≤ requests.length) (h2 : requests.length ≤ 100) :
    process_batch_core requests run t
      = .ok ⟨(requests.length : Int),
          ((aggregateFrom 0 (runAll run 0 requests)).successful : Int),
          ((aggregateFrom 0 (runAll run 0 requests)).failed : Int),
          (aggregateFrom 0 (runAll run 0 requests)).results, t,
          (aggregateFrom 0 (runAll run 0 requests)).errors⟩ := by
  have hne : requests.isEmpty = false := by
    cases requests with
    | nil => simp at h1
    | cons x xs => rfl
  have hcounts := aggregateFrom_counts 0 (runAll run 0 requests)
  have hlen := runAll_length run 0 requests
  rw [hlen] at hcounts
  obtain ⟨hc1, hc2⟩ := hcounts
  unfold process_batch_core mkBatchTTSResponse
  rw [hne]
  simp only [Bool.false_eq_true, if_false, Nat.not_lt.mpr h2, if_neg (by omega : ¬ 100 < requests.length)]
  rw [if_neg (by omega), if_neg (by simp [hc2])]

theorem process_batch_ok (requests : List TTSRequest)
    (run : Nat → TTSRequest → PyResult TTSResponse) (t : Rat)
    (h1 : 1 ≤ requests.length) (h2 : requests.length ≤ 100) :
    process_batch requests run t
      = .ok ⟨(requests.length : Int),
          ((aggregateFrom 0 (runAll run 0 requests)).successful : Int),
          ((aggregateFrom 0 (runAll run 0 requests)).failed : Int),
          (aggregateFrom 0 (runAll run 0 requests)).results, t,
          (aggregateFrom 0 (runAll run 0 requests)).errors⟩ := by
  unfold process_batch
  rw [process_batch_core_ok requests run t h1 h2]

theorem process_batch_fallback (requests : List TTSRequest)
    (run : Nat → TTSRequest → PyResult TTSResponse) (t : Rat) (e : String)
    (h : process_batch_core requests run t = .error e) :
    process_batch requests run t
      = .ok ⟨(requests.length : Int), 0, (requests.length : Int),
          requests.map (fun _ => { success := false, error := some e }), t, [e]⟩ := by
  unfold process_batch
  rw [h]
  simp [mkBatchTTSResponse]

/-- C1: for every batch of size 1 to 100 and every dispatch behavior,
process_batch returns a BatchTTSResponse with successful + failed equal to
total_requests and exactly total_requests results; and constructing a
BatchTTSResponse that violates either equation fails with a
programming-error exception instead of returning inconsistent state. -/
theorem batch_counts_reconcile :
    (∀ (requests : List TTSRequest) (run : Nat → TTSRequest → PyResult TTSResponse) (t : Rat),
      1 ≤ requests.length → requests.length ≤ 100 →
      ∃ r, process_batch requests run t = .ok r ∧
        r.successful + r.failed = r.total_requests ∧
        (r.results.length : Int) = r.total_requests) ∧
    (∀ (total successful failed : Int) (results : List TTSResponse) (t : Rat)
        (errors : List String),
      successful + failed ≠ total ∨ (results.length : Int) ≠ total →
      ∃ e, mkBatchTTSResponse total successful failed results t errors = .error e) := by
  constructor
  · intro requests run t h1 h2
    obtain ⟨hc1, hc2⟩ := aggregateFrom_counts 0 (runAll run 0 requests)
    rw [runAll_length] at hc1 hc2
    refine ⟨_, process_batch_ok requests run t h1 h2, ?_, ?_⟩
    · show ((aggregateFrom 0 (runAll run 0 requests)).successful : Int)
          + ((aggregateFrom 0 (runAll run 0 requests)).failed : Int)
          = (requests.length : Int)
      exact_mod_cast hc1
    · show ((aggregateFrom 0 (runAll run 0 requests)).results.length : Int)
          = (requests.length : Int)
      exact_mod_cast hc2
  · intro total successful failed results t errors h
    unfold mkBatchTTSResponse
    split_ifs with hA hB
    · exact ⟨_, rfl⟩
    · exact ⟨_, rfl⟩
    · tauto

/-- Witness for C1 at a concrete one-item batch and a concrete
inconsistent construction. -/
theorem batch_counts_reconcile_witness :
    (∃ r, process_batch [{ text := "hi" }] (fun _ _ => .ok { success := true }) 0 = .ok r ∧
      r.successful + r.failed = r.total_requests ∧
      (r.results.length : Int) = r.total_requests) ∧
    (∃ e, mkBatchTTSResponse 2 2 1 [] 0 [] = .error e) :=
  ⟨batch_counts_reconcile.1 [{ text := "hi" }] (fun _ _ => .ok { success := true }) 0
      (by decide) (by decide),
    batch_counts_reconcile.2 2 2 1 [] 0 [] (by decide)⟩

/-- C2: for every valid batch, the i-th entry of the results sequence is
the outcome of running the i-th submitted request (index alignment with
submission order; gather resolves tasks index-aligned whatever the
completion order, which the dispatch model encodes). -/
theorem outcomes_index_aligned :
    ∀ (requests : List TTSRequest) (api : Nat → Nat → PyResult Bytes)
      (retry_attempts : Nat) (t : Rat),
      1 ≤ requests.length → requests.length ≤ 100 →
      ∃ r, process_batch_with_agent requests api retry_attempts t = .ok r ∧
        ∀ i req, requests.get? i = some req →
          r.results.get? i
            = some (processSingleRequest (fun a => generate_speech req (api i a))
                retry_attempts).response := by
  intro requests api R t h1 h2
  unfold process_batch_with_agent
  refine ⟨_, process_batch_ok requests _ t h1 h2, ?_⟩
  intro i req hreq
  show (aggregateFrom 0 (runAll _ 0 requests)).results.get? i = _
  rw [aggregateFrom_get?, runAll_get?, hreq]
  simp [postItem]

/-- Witness for C2 at a concrete two-item batch. -/
theorem outcomes_index_aligned_witness :
    ∃ r, process_batch_with_agent [{ text := "a" }, { text := "b" }]
        (fun _ _ => .ok [5]) 1 0 = .ok r ∧
      ∀ i req, ([{ text := "a" }, { text := "b" }] : List TTSRequest).get? i = some req →
        r.results.get? i
          = some (processSingleRequest (fun a => generate_speech req ((fun _ _ => .ok [5]) i a))
              1).response :=
  outcomes_index_aligned [{ text := "a" }, { text := "b" }] (fun _ _ => .ok [5]) 1 0
    (by decide) (by decide)

/-- C10: process_batch never propagates an exception to the caller: for
every input it returns a BatchTTSResponse, and whenever its try-block
raises with message e the returned response has successful = 0, failed =
number of requests, one failed outcome per request, and e as the single
errors entry. -/
theorem process_batch_never_raises :
    ∀ (requests : List TTSRequest) (run : Nat → TTSRequest → PyResult TTSResponse) (t : Rat),
      (∃ r, process_batch requests run t = .ok r) ∧
      ∀ e, process_batch_core requests run t = .error e →
        process_batch requests run t
          = .ok ⟨(requests.length : Int), 0, (requests.length : Int),
              requests.map (fun _ => { success := false, error := some e }), t, [e]⟩ := by
  intro requests run t
  constructor
  · cases hc : process_batch_core requests run t with
    | ok r => exact ⟨r, by unfold process_batch; rw [hc]⟩
    | error e => exact ⟨_, process_batch_fallback requests run t e hc⟩
  · intro e hc
    exact process_batch_fallback requests run t e hc

/-- Witness for C10 at the empty batch, whose try-block raises the
empty-batch TTSValidationError. -/
theorem process_batch_never_raises_witness :
    process_batch ([] : List TTSRequest) (fun _ _ => .ok { success := true }) 0
      = .ok ⟨0, 0, 0, [], 0, ["No requests provided for batch processing"]⟩ :=
  (process_batch_never_raises [] (fun _ _ => .ok { success := true }) 0).2
    "No requests provided for batch processing" (by decide)

/-- C3 is refuted at the empty batch: process_batch does not fail the call
with a TTSValidationError — the internal raise is caught by its own
try/except and a BatchTTSResponse is produced and returned. -/
theorem empty_batch_returns_result :
    process_batch ([] : List TTSRequest) (fun _ _ => .ok { success := true }) 0
      = .ok ⟨0, 0, 0, [], 0, ["No requests provided for batch processing"]⟩ ∧
    ¬ ∃ e, process_batch ([] : List TTSRequest) (fun _ _ => .ok { success := true }) 0
      = .exn e := by
  have hok : process_batch ([] : List TTSRequest) (fun _ _ => .ok { success := true }) 0
      = .ok ⟨0, 0, 0, [], 0, ["No requests provided for batch processing"]⟩ := by decide
  refine ⟨hok, ?_⟩
  rintro ⟨e, h⟩
  rw [hok] at h
  exact PyResult.noConfusion h

/-- C3 amended: a batch of size 0 or more than 100 is detected before any
dispatch — no per-item execution occurs (the outcome is the same under any
dispatch behavior) — but the TTSValidationError raised internally is
caught by process_batch itself, which returns a BatchTTSResponse with
zero successes, every outcome failed, and the validation message as the
single errors entry, rather than surfacing the exception. -/
theorem invalid_batch_size_contained :
    ∀ (requests : List TTSRequest) (run run2 : Nat → TTSRequest → PyResult TTSResponse) (t : Rat),
      requests.length = 0 ∨ 100 < requests.length →
      process_batch requests run t = process_batch requests run2 t ∧
      ∃ r, process_batch requests run t = .ok r ∧
        r.successful = 0 ∧ r.failed = (requests.length : Int) ∧
        r.results.length = requests.length ∧
        (∀ x ∈ r.results, x.success = false) ∧
        r.errors = [if requests.length = 0 then "No requests provided for batch processing"
          else "Maximum 100 requests allowed per batch"] := by
  intro requests run run2 t h
  have hcore : ∀ run3 : Nat → TTSRequest → PyResult TTSResponse,
      process_batch_core requests run3 t
        = .error (if requests.length = 0 then "No requests provided for batch processing"
            else "Maximum 100 requests allowed per batch") := by
    intro run3
    unfold process_batch_core
    rcases h with h0 | h100
    · rcases requests with _ | ⟨x, xs⟩
      · simp
      · simp at h0
    · have he : requests.isEmpty = false := by
        cases requests with
        | nil => simp at h100
        | cons x xs => rfl
      have hz : requests.length ≠ 0 := by omega
      rw [he]
      simp only [Bool.false_eq_true, if_false]
      rw [if_pos h100, if_neg hz]
  have hfb := fun run3 => process_batch_fallback requests run3 t _ (hcore run3)
  refine ⟨by rw [hfb run, hfb run2], _, hfb run, rfl, rfl, by simp, by simp, rfl⟩

/-- Witness for the amended C3 at the empty batch. -/
theorem invalid_batch_size_contained_witness :
    process_batch ([] : List TTSRequest) (fun _ _ => .ok { success := true }) 0
        = process_batch ([] : List TTSRequest) (fun _ _ => .exn "x") 0 ∧
    ∃ r, process_batch ([] : List TTSRequest) (fun _ _ => .ok { success := true }) 0 = .ok r ∧
      r.successful = 0 ∧ r.failed = (([] : List TTSRequest).length : Int) ∧
      r.results.length = ([] : List TTSRequest).length ∧
      (∀ x ∈ r.results, x.success = false) ∧
      r.errors = [if ([] : List TTSRequest).length = 0
        then "No requests provided for batch processing"
        else "Maximum 100 requests allowed per batch"] :=
  invalid_batch_size_contained [] (fun _ _ => .ok { success := true }) (fun _ _ => .exn "x") 0
    (Or.inl rfl)

/-- C5: an exception from one item of a valid batch is captured and turned
into a failure outcome for that item only: the batch still returns
normally, the raising item's outcome is the indexed failure response, and
every sibling outcome is exactly what it would have been under any
dispatch that treats the other items the same way. -/
theorem item_exception_isolated :
    ∀ (requests : List TTSRequest) (run run2 : Nat → TTSRequest → PyResult TTSResponse)
      (t : Rat) (i : Nat) (msg : String),
      1 ≤ requests.length → requests.length ≤ 100 →
      (∀ req, run i req = .exn msg) →
      (∀ j req, j ≠ i → run j req = run2 j req) →
      ∃ r r2, process_batch requests run t = .ok r ∧
        process_batch requests run2 t = .ok r2 ∧
        (∀ req, requests.get? i = some req →
          r.results.get? i = some { success := false, error := some (requestError i msg) }) ∧
        (∀ j, j ≠ i → r.results.get? j = r2.results.get? j) := by
  intro requests run run2 t i msg h1 h2 hexn hagree
  refine ⟨_, _, process_batch_ok requests run t h1 h2,
    process_batch_ok requests run2 t h1 h2, ?_, ?_⟩
  · intro req hreq
    show (aggregateFrom 0 (runAll run 0 requests)).results.get? i = _
    rw [aggregateFrom_get?, runAll_get?, hreq]
    simp [hexn, postItem]
  · intro j hj
    show (aggregateFrom 0 (runAll run 0 requests)).results.get? j
        = (aggregateFrom 0 (runAll run2 0 requests)).results.get? j
    rw [aggregateFrom_get?, aggregateFrom_get?, runAll_get?, runAll_get?]
    cases hr : requests.get? j with
    | none => rfl
    | some req => simp [hagree j req hj]

/-- Witness for C5: a two-item batch where item 0 raises and item 1
behaves as in an exception-free dispatch. -/
theorem item_exception_isolated_witness :
    ∃ r r2, process_batch [{ text := "a" }, { text := "b" }]
        (fun j _ => if j = 0 then .exn "boom" else .ok { success := true }) 0 = .ok r ∧
      process_batch [{ text := "a" }, { text := "b" }]
        (fun _ _ => .ok { success := true }) 0 = .ok r2 ∧
      (∀ req, ([{ text := "a" }, { text := "b" }] : List TTSRequest).get? 0 = some req →
        r.results.get? 0 = some { success := false, error := some (requestError 0 "boom") }) ∧
      (∀ j, j ≠ 0 → r.results.get? j = r2.results.get? j) :=
  item_exception_isolated [{ text := "a" }, { text := "b" }]
    (fun j _ => if j = 0 then .exn "boom" else .ok { success := true })
    (fun _ _ => .ok { success := true }) 0 0 "boom" (by decide) (by decide)
    (fun _ => rfl)
    (fun j _ hj => by simp [hj])

/-- C4: for a valid item request and a backend that raises on its first k
synthesis calls and succeeds on call k: with retry_attempts at least k the
item's final outcome is a success reached on attempt k + 1; with
retry_attempts below k the final outcome is a failure whose error message
carries the message of the last attempt; and, for any backend behavior at
all, at most retry_attempts + 1 attempts are made per item. -/
theorem retry_fail_k_then_succeed :
    ∀ (req : TTSRequest) (api : Nat → PyResult Bytes) (failMsg : Nat → String)
      (k retry_attempts : Nat) (audio : Bytes),
      (mkTTSRequest req).isOk = true →
      (∀ a, a < k → api a = .exn (failMsg a)) →
      api k = .ok audio →
      (k ≤ retry_attempts →
        (processSingleRequest (fun a => generate_speech req (api a))
          retry_attempts).response.success = true ∧
        (processSingleRequest (fun a => generate_speech req (api a))
          retry_attempts).attempts = k + 1) ∧
      (retry_attempts < k →
        (processSingleRequest (fun a => generate_speech req (api a))
          retry_attempts).response.success = false ∧
        (processSingleRequest (fun a => generate_speech req (api a))
          retry_attempts).response.error
          = some ("Failed after " ++ toString (retry_attempts + 1) ++ " attempts: "
              ++ failMsg retry_attempts) ∧
        (processSingleRequest (fun a => generate_speech req (api a))
          retry_attempts).attempts = retry_attempts + 1) ∧
      (∀ (backend : Nat → PyResult TTSResponse) (R : Nat),
        (processSingleRequest backend R).attempts ≤ R + 1) := by
  intro req api failMsg k R audio hvalid hfail hsucc
  obtain ⟨v, hv⟩ : ∃ v, mkTTSRequest req = .ok v := by
    cases hmk : mkTTSRequest req with
    | error e => rw [hmk] at hvalid; exact absurd hvalid (by simp [Except.isOk, Except.toBool])
    | ok v => exact ⟨v, rfl⟩
  have hbfail : ∀ a, a < k →
      (fun a => generate_speech req (api a)) a = .exn (failMsg a) := by
    intro a ha
    simp only [generate_speech, hv, hfail a ha]
  have hbfail2 : ∀ a, a < k → isFailAt (fun a => generate_speech req (api a)) a := by
    intro a ha
    unfold isFailAt
    rw [hbfail a ha]
    trivial
  refine ⟨?_, ?_, ?_⟩
  · intro hk
    have hsr : (fun a => generate_speech req (api a)) k
        = .ok { success := true
                audio_data := some audio
                file_size := some audio.length
                metadata := [("voice", .s v.voice), ("model", .s v.model),
                  ("format", .s v.format), ("speed", .q v.speed),
                  ("text_length", .n (pyLen req.text))] } := by
      simp only [generate_speech, hv, hsucc]
    have h := retryAux_succeedsAt (fun a => generate_speech req (api a)) R R 0 k _
      (Nat.zero_le k) (by omega) (fun j _ hj => hbfail2 j hj) hsr rfl
    unfold processSingleRequest
    rw [h]
    exact ⟨rfl, rfl⟩
  · intro hk
    have h := retryAux_allFail (fun a => generate_speech req (api a)) R R 0
      (fun j _ hj => hbfail2 j (by omega))
    unfold processSingleRequest
    rw [h]
    simp only [Nat.zero_add, lastResponseAt, hbfail R hk]
    exact ⟨trivial, trivial, trivial⟩
  · intro backend R2
    exact (retryAux_sleeps backend R2 R2 0).2.2

/-- Witness for C4: backend raising once then succeeding, with 2 retries
allowed, and a fully concrete attempts bound instance. -/
theorem retry_fail_k_then_succeed_witness :
    ((1 ≤ 2 →
      (processSingleRequest
        (fun a => generate_speech { text := "hi" }
          ((fun a => if a = 0 then .exn "boom" else .ok [1]) a)) 2).response.success = true ∧
      (processSingleRequest
        (fun a => generate_speech { text := "hi" }
          ((fun a => if a = 0 then .exn "boom" else .ok [1]) a)) 2).attempts = 1 + 1) ∧
    (2 < 1 →
      (processSingleRequest
        (fun a => generate_speech { text := "hi" }
          ((fun a => if a = 0 then .exn "boom" else .ok [1]) a)) 2).response.success = false ∧
      (processSingleRequest
        (fun a => generate_speech { text := "hi" }
          ((fun a => if a = 0 then .exn "boom" else .ok [1]) a)) 2).response.error
        = some ("Failed after " ++ toString (2 + 1) ++ " attempts: "
            ++ (fun _ => "boom") 2) ∧
      (processSingleRequest
        (fun a => generate_speech { text := "hi" }
          ((fun a => if a = 0 then .exn "boom" else .ok [1]) a)) 2).attempts = 2 + 1) ∧
    (∀ (backend : Nat → PyResult TTSResponse) (R : Nat),
      (processSingleRequest backend R).attempts ≤ R + 1)) :=
  retry_fail_k_then_succeed { text := "hi" }
    (fun a => if a = 0 then .exn "boom" else .ok [1]) (fun _ => "boom") 1 2 [1]
    (by decide)
    (fun a ha => by
      have : a = 0 := by omega
      subst this
      rfl)
    rfl

/-- C6 is refuted: a batch item whose request fails validation is retried
like any other failure (two generate_speech attempts and one backoff sleep
here, where the claim requires a single attempt and no retry). -/
theorem invalid_request_retried :
    (processSingleRequest (fun _ => generate_speech { text := " " } (.ok [1])) 1).attempts = 2 ∧
    (processSingleRequest (fun _ => generate_speech { text := " " } (.ok [1])) 1).sleeps
      = [1] := by
  decide

/-- C6 amended: a validation failure of an item's request yields a failure
outcome and the Backend is never invoked for it (the run is identical
under any backend behavior), but the engine still retries the item like
any other failure, making retry_attempts + 1 attempts in total rather
than treating the validation failure as terminal. -/
theorem invalid_request_no_backend_call :
    ∀ (req : TTSRequest) (api api2 : Nat → PyResult Bytes) (retry_attempts : Nat) (e : String),
      mkTTSRequest req = .error e →
      processSingleRequest (fun a => generate_speech req (api a)) retry_attempts
        = processSingleRequest (fun a => generate_speech req (api2 a)) retry_attempts ∧
      (processSingleRequest (fun a => generate_speech req (api a)) retry_attempts).response
        = { success := false, error := some ("Unexpected error: " ++ e) } ∧
      (processSingleRequest (fun a => generate_speech req (api a)) retry_attempts).attempts
        = retry_attempts + 1 := by
  intro req api api2 R e he
  have hb : ∀ x : PyResult Bytes,
      generate_speech req x = .ok { success := false, error := some ("Unexpected error: " ++ e) } := by
    intro x
    simp only [generate_speech, he]
  have hfuneq : (fun a => generate_speech req (api a))
      = fun a => generate_speech req (api2 a) := by
    funext a
    rw [hb, hb]
  have hall := retryAux_allFail (fun a => generate_speech req (api a)) R R 0
    (fun j _ _ => by simp [isFailAt, hb])
  refine ⟨by rw [hfuneq], ?_, ?_⟩
  · unfold processSingleRequest
    rw [hall]
    simp only [Nat.zero_add, lastResponseAt, hb]
  · unfold processSingleRequest
    rw [hall]

/-- Witness for the amended C6: a whitespace-only request with one retry
allowed, under two different backend behaviors. -/
theorem invalid_request_no_backend_call_witness :
    processSingleRequest (fun a => generate_speech { text := " " } ((fun _ => .ok [1]) a)) 1
      = processSingleRequest (fun a => generate_speech { text := " " } ((fun _ => .exn "down") a)) 1 ∧
    (processSingleRequest (fun a => generate_speech { text := " " } ((fun _ => .ok [1]) a)) 1).response
      = { success := false,
          error := some ("Unexpected error: " ++ "Text cannot be empty or only whitespace") } ∧
    (processSingleRequest (fun a => generate_speech { text := " " } ((fun _ => .ok [1]) a)) 1).attempts
      = 1 + 1 :=
  invalid_request_no_backend_call { text := " " } (fun _ => .ok [1]) (fun _ => .exn "down") 1
    "Text cannot be empty or only whitespace" (by decide)

/-- C8: the engine sleeps between consecutive attempts only — the number
of attempts is one more than the number of sleeps — and the sleep before
the n-th retry (1-based) is exactly max(1, n) = n seconds, i.e. the sleep
sequence is 1, 2, 3, ... (linear backoff). -/
theorem linear_backoff :
    ∀ (backend : Nat → PyResult TTSResponse) (retry_attempts : Nat),
      (processSingleRequest backend retry_attempts).sleeps
        = List.range' 1 ((processSingleRequest backend retry_attempts).attempts - 1) ∧
      (processSingleRequest backend retry_attempts).attempts
        = (processSingleRequest backend retry_attempts).sleeps.length + 1 ∧
      ∀ n, 1 ≤ n → n ≤ (processSingleRequest backend retry_attempts).sleeps.length →
        (processSingleRequest backend retry_attempts).sleeps.get? (n - 1)
          = some (max 1 n) := by
  intro backend R
  obtain ⟨hs0, h10, _⟩ := retryAux_sleeps backend R R 0
  have hs : (processSingleRequest backend R).sleeps
      = List.range' 1 ((processSingleRequest backend R).attempts - 1) := hs0
  have h1 : 1 ≤ (processSingleRequest backend R).attempts := h10
  refine ⟨hs, ?_, ?_⟩
  · rw [hs, List.length_range']
    omega
  · intro n hn1 hn2
    rw [hs, List.length_range'] at hn2
    rw [hs, List.get?_eq_getElem?,
      List.getElem?_range' 1 1 (show n - 1 < (processSingleRequest backend R).attempts - 1 by omega)]
    have he : 1 + 1 * (n - 1) = max 1 n := by
      rw [Nat.max_eq_right hn1]
      omega
    rw [he]

/-- Witness for C8 at a backend failing twice then succeeding with three
retries allowed (two sleeps of 1 and 2 seconds). -/
theorem linear_backoff_witness :
    (processSingleRequest (fun a => if a < 2 then .exn "x" else .ok { success := true }) 3).sleeps
      = List.range' 1 ((processSingleRequest
          (fun a => if a < 2 then .exn "x" else .ok { success := true }) 3).attempts - 1) ∧
    (processSingleRequest (fun a => if a < 2 then .exn "x" else .ok { success := true }) 3).attempts
      = (processSingleRequest
          (fun a => if a < 2 then .exn "x" else .ok { success := true }) 3).sleeps.length + 1 ∧
    ∀ n, 1 ≤ n →
      n ≤ (processSingleRequest
        (fun a => if a < 2 then .exn "x" else .ok { success := true }) 3).sleeps.length →
      (processSingleRequest
        (fun a => if a < 2 then .exn "x" else .ok { success := true }) 3).sleeps.get? (n - 1)
        = some (max 1 n) :=
  linear_backoff (fun a => if a < 2 then .exn "x" else .ok { success := true }) 3

theorem dropWhile_isPySpace_replicate (n : Nat) :
    List.dropWhile isPySpace (List.replicate n 'a') = List.replicate n 'a' := by
  cases n with
  | zero => rfl
  | succ m =>
    rw [List.replicate_succ]
    exact List.dropWhile_cons_of_neg (by decide)

theorem pyStrip_repl_space (n : Nat) :
    pyStrip (String.mk (List.replicate (n + 1) 'a' ++ [' ']))
      = String.mk (List.replicate (n + 1) 'a') := by
  have h1 : List.dropWhile isPySpace (List.replicate (n + 1) 'a' ++ [' '])
      = List.replicate (n + 1) 'a' ++ [' '] := by
    rw [List.replicate_succ, List.cons_append]
    exact List.dropWhile_cons_of_neg (by decide)
  have h2 : (List.replicate (n + 1) 'a' ++ [' ']).reverse
      = ' ' :: List.replicate (n + 1) 'a' := by
    rw [List.reverse_append, List.reverse_replicate]
    rfl
  have h3 : List.dropWhile isPySpace (' ' :: List.replicate (n + 1) 'a')
      = List.replicate (n + 1) 'a' := by
    rw [List.dropWhile_cons_of_pos (by decide)]
    exact dropWhile_isPySpace_replicate (n + 1)
  show String.mk
      ((((List.replicate (n + 1) 'a' ++ [' ']).dropWhile isPySpace).reverse.dropWhile
        isPySpace).reverse)
    = String.mk (List.replicate (n + 1) 'a')
  rw [h1, h2, h3, List.reverse_replicate]

theorem pyStrip_overlong :
    pyStrip overlongText = String.mk (List.replicate 4096 'a') := by
  have h := pyStrip_repl_space 4095
  norm_num at h
  exact h

/-- C7 is refuted: a request whose text has 4097 characters but trims to
4096 characters satisfies the acceptance condition as the spec words it,
yet the validator rejects it, because the 4096 ceiling is enforced on the
original text before trimming. -/
theorem overlong_trimmed_text_rejected :
    specAccepts { text := overlongText } ∧
    (mkTTSRequest { text := overlongText }).isOk = false := by
  have hstrip := pyStrip_overlong
  have hlen : pyLen overlongText = 4097 := by
    show (List.replicate 4096 'a' ++ [' ']).length = 4097
    rw [List.length_append, List.length_replicate]
    rfl
  constructor
  · unfold specAccepts
    refine ⟨?_, ?_, by decide, by decide, by decide, by decide, by decide⟩
    · show pyStrip overlongText ≠ ""
      rw [hstrip]
      intro hcon
      have hdata := congrArg String.data hcon
      have hl : (List.replicate 4096 'a').length = (0 : Nat) := congrArg List.length hdata
      rw [List.length_replicate] at hl
      exact absurd hl (by norm_num)
    · show pyLen (pyStrip overlongText) ≤ 4096
      rw [hstrip]
      show (List.replicate 4096 'a').length ≤ 4096
      rw [List.length_replicate]
  · show (mkTTSRequest { text := overlongText }).isOk = false
    unfold mkTTSRequest
    rw [if_neg (show ¬ pyLen overlongText < 1 by omega),
      if_pos (show 4096 < pyLen overlongText by omega)]
    rfl

/-- C7 amended: the validator accepts a request if and only if the
original text has between 1 and 4096 characters (the ceiling constrains
the untrimmed text), the text is non-empty after trimming, the speed lies
in [0.25, 4.0] inclusive, and voice, model and format belong to their
fixed enumerations; the accepted request carries the trimmed text in
place of the original, and every rejection is a validation error. -/
theorem validator_accepts_iff :
    ∀ r : TTSRequest,
      ((mkTTSRequest r).isOk = true ↔ codeAccepts r) ∧
      ∀ v, mkTTSRequest r = .ok v → v = { r with text := pyStrip r.text } := by
  intro r
  constructor
  · unfold mkTTSRequest codeAccepts
    split_ifs
    all_goals
      simp only [Except.isOk, Except.toBool, Bool.false_eq_true, eq_self_iff_true,
        false_iff, true_iff]
    all_goals
      try
        first
          | (rintro ⟨c1, c2, c3, c4, c5, c6, c7, c8⟩; first | omega | tauto)
          | exact ⟨by omega, by omega, by tauto, by tauto, by tauto, by tauto,
              by tauto, by tauto⟩
  · intro v hv
    unfold mkTTSRequest at hv
    split_ifs at hv
    all_goals
      first
        | exact Except.noConfusion hv
        | (injection hv with h; exact h.symm)

/-- Witness for the amended C7 at a padded valid request: accepted, and
the validated value carries the trimmed text. -/
theorem validator_accepts_iff_witness :
    (mkTTSRequest { text := "  hi " }).isOk = true ∧
    ({ text := "hi" } : TTSRequest)
      = { ({ text := "  hi " } : TTSRequest) with
          text := pyStrip ({ text := "  hi " } : TTSRequest).text } :=
  ⟨(validator_accepts_iff { text := "  hi " }).1.mpr (by decide),
    (validator_accepts_iff { text := "  hi " }).2 { text := "hi" } (by decide)⟩

theorem streamLoop_yields (cb : Bytes → Bool) :
    ∀ l : List Bytes, (streamLoop cb l).1 = l := by
  intro l
  induction l with
  | nil => rfl
  | cons c rest ih => simp [streamLoop, ih]

theorem flatten_filter_nonempty :
    ∀ l : List Bytes, (l.filter (fun c => !c.isEmpty)).flatten = l.flatten := by
  intro l
  induction l with
  | nil => rfl
  | cons c rest ih => cases c <;> simp [List.filter_cons, ih]

/-- C9 is refuted: a backend stream consisting of one empty chunk is not
yielded back verbatim — the empty chunk is dropped by the `if chunk:`
guard, and although an output path is supplied nothing is written. -/
theorem empty_chunk_dropped :
    stream_speech { text := "hi" } [[]] true (fun _ => false) = .ok ⟨[], 0, none⟩ ∧
    ([] : List Bytes) ≠ [[]] := by
  decide

/-- C9 amended: for a valid request, stream_speech yields exactly the
non-empty chunks the backend produces, in order; the concatenation of the
yielded chunks equals the concatenation of all produced chunks; when an
output path is supplied the file is written exactly when at least one
non-empty chunk was produced, with the concatenation as its bytes; and a
raising per-chunk callback is swallowed — it changes neither what is
yielded nor what is written. -/
theorem stream_yields_nonempty_chunks :
    ∀ (req v : TTSRequest) (chunks : List Bytes) (hasOut : Bool) (cb cb2 : Bytes → Bool),
      mkTTSRequest req = .ok v →
      ∃ tr tr2, stream_speech req chunks hasOut cb = .ok tr ∧
        stream_speech req chunks hasOut cb2 = .ok tr2 ∧
        tr.yielded = chunks.filter (fun c => !c.isEmpty) ∧
        tr.yielded.flatten = chunks.flatten ∧
        tr.written
          = (if hasOut && !tr.yielded.isEmpty then some tr.yielded.flatten else none) ∧
        tr2.yielded = tr.yielded ∧ tr2.written = tr.written := by
  intro req v chunks hasOut cb cb2 hok
  unfold stream_speech streamAudioChunks
  rw [hok]
  refine ⟨_, _, rfl, rfl, ?_, ?_, ?_, ?_, ?_⟩
  · exact streamLoop_yields cb _
  · rw [streamLoop_yields]
    exact flatten_filter_nonempty chunks
  · rfl
  · rw [streamLoop_yields, streamLoop_yields]
  · simp only [streamLoop_yields]

/-- Witness for the amended C9: three non-empty chunks, output path
supplied, under an always-raising callback and a never-raising one. -/
theorem stream_yields_nonempty_chunks_witness :
    ∃ tr tr2, stream_speech { text := "hi" } [[1], [2], [3]] true (fun _ => true) = .ok tr ∧
      stream_speech { text := "hi" } [[1], [2], [3]] true (fun _ => false) = .ok tr2 ∧
      tr.yielded = [[1], [2], [3]].filter (fun c => !c.isEmpty) ∧
      tr.yielded.flatten = [[1], [2], [3]].flatten ∧
      tr.written
        = (if true && !tr.yielded.isEmpty then some tr.yielded.flatten else none) ∧
      tr2.yielded = tr.yielded ∧ tr2.written = tr.written :=
  stream_yields_nonempty_chunks { text := "hi" } { text := "hi" } [[1], [2], [3]] true
    (fun _ => true) (fun _ => false) (by decide)

end TTSAgents
